import Mathlib

/-!
Verification development for the adaptive audio enhancement pipeline
(`src/server.js`, with the earlier pipeline evolutions in
`src/unnamed/part_000` and `src/unnamed/part_001` embedded separately where
a claim cites them).

Numeric measurements, loudness figures and user parameters are modelled as
rationals (`ℚ`); a measurement that failed to parse (the source's `null` /
non-finite case) is modelled as `none : Option ℚ`.  Filter chains are
modelled as lists of `FilterOp`, the typed form of the textual ffmpeg
filter-graph fragments the source concatenates.
-/

/-- Job status values used by `setJob` in `src/server.js`. -/
inductive JobStatus where
  | queued
  | processing
  | done
  | failed
  deriving DecidableEq, Repr

/-- The spectral profile assembled by `analyzeBands` (src/server.js:105-111):
four per-band mean volumes plus the full-band max volume.  Each field is
`none` when `parseNumberFrom` returned `null` (or a non-finite value), so that
`Number.isFinite` guards in the source correspond to `Option.isSome` here. -/
structure SpectralProfile where
  lowMean : Option ℚ
  midMean : Option ℚ
  highMean : Option ℚ
  fullMean : Option ℚ
  fullMax : Option ℚ
  deriving DecidableEq, Repr

/-- Low-vs-mid rule of `analyzeBands` (src/server.js:115-118). -/
def lowMidTags (p : SpectralProfile) : List String :=
  match p.lowMean, p.midMean with
  | some low, some mid =>
      (if low - mid < -8 then ["low_end_weak"] else []) ++
      (if low - mid > 6 then ["low_end_heavy"] else [])
  | _, _ => []

/-- High-vs-mid rule of `analyzeBands` (src/server.js:120-123). -/
def highMidTags (p : SpectralProfile) : List String :=
  match p.highMean, p.midMean with
  | some high, some mid =>
      (if high - mid > -3 then ["harsh_highs"] else []) ++
      (if high - mid < -14 then ["dull_highs"] else [])
  | _, _ => []

/-- Mid-vs-full rule of `analyzeBands` (src/server.js:125-127). -/
def midFullTags (p : SpectralProfile) : List String :=
  match p.midMean, p.fullMean with
  | some mid, some full => if mid - full > 2.5 then ["mid_forward"] else []
  | _, _ => []

/-- Peak rule of `analyzeBands` (src/server.js:129). -/
def peakTags (p : SpectralProfile) : List String :=
  match p.fullMax with
  | some fullMax => if fullMax > -1.0 then ["too_loud"] else []
  | _ => []

/-- Quiet rule of `analyzeBands` (src/server.js:130). -/
def quietTags (p : SpectralProfile) : List String :=
  match p.fullMean with
  | some fullMean => if fullMean < -22 then ["too_quiet"] else []
  | _ => []

/-- Tag classification of `analyzeBands` (src/server.js:113-131).  The
measurement half of `analyzeBands` shells out to ffmpeg and is modelled by the
given `SpectralProfile`; this function is the pure classification that follows
it.  Tags are pushed in source order; a rule whose operands are not finite is
skipped entirely. -/
def analyzeBandsTags (p : SpectralProfile) : List String :=
  lowMidTags p ++ highMidTags p ++ midFullTags p ++ peakTags p ++ quietTags p

/-- A platform loudness target `{I, TP, LRA}` as returned by
`getMasterTarget` / `getMixTarget` (src/server.js:63-78). -/
structure MasterTarget where
  I : ℚ
  TP : ℚ
  LRA : ℚ
  deriving DecidableEq, Repr

/-- `getMasterTarget` (src/server.js:64-70). -/
def getMasterTarget (profile : String) : MasterTarget :=
  if profile = "apple_music" then ⟨-16, -1.0, 11⟩
  else if profile = "soundcloud" then ⟨-13, -1.0, 10⟩
  else if profile = "spotify" then ⟨-14, -1.0, 10⟩
  else if profile = "loud" then ⟨-10, -0.8, 8⟩
  else ⟨-14, -1.0, 10⟩

/-- `getMixTarget` (src/server.js:76-78), the softer mix/4d safety target. -/
def getMixTarget : MasterTarget := ⟨-16, -1.2, 12⟩

/-- The measurement report of the first loudnorm pass, as consumed by
`loudnormSecondPassFilter` (src/server.js:230-236): the five numeric fields the
spec defines for the measure pass (measured integrated loudness, measured true
peak, measured range, measured threshold, computed target offset). -/
structure LoudnormMeasured where
  input_i : ℚ
  input_tp : ℚ
  input_lra : ℚ
  input_thresh : ℚ
  target_offset : ℚ
  deriving DecidableEq, Repr

/-- One ffmpeg filter operation as emitted by the synthesizer.  Fixed textual
filters are `lit`; the numerically parameterised operations of
`buildTempoPitch` keep their parameter symbolically (`asetratePow2 p` is the
source's `asetrate=48000*${2^(p/12)}`, `atempoInvPow2 p` its
`atempo=${1/2^(p/12)}`), and `loudnorm2` is the second-pass loudnorm filter
of `loudnormSecondPassFilter`. -/
inductive FilterOp where
  | lit (s : String)
  | atempo (t : ℚ)
  | asetratePow2 (p : ℚ)
  | atempoInvPow2 (p : ℚ)
  | loudnorm2 (target : MasterTarget) (m : LoudnormMeasured)
  deriving DecidableEq, Repr

/-- `buildAdaptiveTone` (src/server.js:139-161): tag-driven tone corrections,
concatenated in the source's tag evaluation order. -/
def buildAdaptiveTone (tags : List String) : List FilterOp :=
  (if "low_end_weak" ∈ tags then [.lit "bass=g=3.5:f=100:w=0.7"] else []) ++
  (if "low_end_heavy" ∈ tags then
      [.lit "bass=g=-3:f=110:w=0.8", .lit "equalizer=f=250:t=q:w=1:g=-1.5"]
    else []) ++
  (if "harsh_highs" ∈ tags then
      [.lit "treble=g=-2.8:f=9000:w=0.6", .lit "equalizer=f=3500:t=q:w=1:g=-1"]
    else []) ++
  (if "dull_highs" ∈ tags then [.lit "treble=g=2.0:f=9000:w=0.6"] else []) ++
  (if "mid_forward" ∈ tags then [.lit "equalizer=f=320:t=q:w=1:g=-2.0"] else [])

/-- `getFocusFilters` (src/server.js:167-192). -/
def getFocusFilters (focus : String) : List FilterOp :=
  if focus = "bass" then
    [.lit "bass=g=6:f=90:w=0.8",
     .lit "acompressor=threshold=-20dB:ratio=2.0:attack=25:release=160:makeup=1.2"]
  else if focus = "presence" then
    [.lit "equalizer=f=3500:t=q:w=1:g=2.5", .lit "equalizer=f=6000:t=q:w=1:g=1.0"]
  else if focus = "air" then [.lit "treble=g=3.5:f=10000:w=0.7"]
  else if focus = "wide" then
    [.lit "stereotools=mlev=1:slev=1.35", .lit "extrastereo=m=2.0"]
  else if focus = "punch" then
    [.lit "acompressor=threshold=-18dB:ratio=2.6:attack=8:release=90:makeup=1.5",
     .lit "equalizer=f=120:t=q:w=1:g=1.0", .lit "equalizer=f=3000:t=q:w=1:g=1.0"]
  else []

/-- `buildTempoPitch` (src/server.js:194-210).  The JS guard
`if (!pitchSemitones) return base` is the `p = 0` test (the `NaN` case is
excluded by request validation).  `part_000` lines 166-182 are textually
identical, so both pipeline versions share this definition. -/
def buildTempoPitch (speedMultiplier pitchSemitones : ℚ) : List FilterOp :=
  let base : List FilterOp :=
    [.lit "aresample=48000:resampler=soxr",
     .lit "aformat=sample_fmts=fltp:channel_layouts=stereo",
     .atempo speedMultiplier]
  if pitchSemitones = 0 then base
  else
    base ++
      [.asetratePow2 pitchSemitones,
       .lit "aresample=48000:resampler=soxr",
       .atempoInvPow2 pitchSemitones]

/-- The final safety limiter shared by all three modes (src/server.js:455,
481, 507). -/
def finalLimiter : FilterOp := .lit "alimiter=limit=0.985:attack=2:release=60"

/-- Mode-specific core chain of `processJob` (src/server.js:437-440 for mix,
464-468 for 4d, 492-494 for master). -/
def coreChain (enhancementType : String) : List FilterOp :=
  if enhancementType = "mix" then
    [.lit "highpass=f=30", .lit "lowpass=f=18000",
     .lit "acompressor=threshold=-20dB:ratio=2.0:attack=25:release=160:makeup=1.0",
     .lit "stereotools=mlev=1:slev=1.12"]
  else if enhancementType = "4d" then
    [.lit "highpass=f=30", .lit "stereotools=mlev=1:slev=1.28",
     .lit "apulsator=hz=0.12:amount=0.30", .lit "aecho=0.8:0.85:40:0.10"]
  else if enhancementType = "master" then
    [.lit "highpass=f=25",
     .lit "acompressor=threshold=-22dB:ratio=1.8:attack=15:release=120:makeup=1.0"]
  else []

/-- Loudness target used by the two-pass loudnorm stage of `processJob`:
the mix safety target for mix/4d (src/server.js:450, 478) and the platform
target for master (src/server.js:489). -/
def loudnessTargetOf (enhancementType masterProfile : String) : MasterTarget :=
  if enhancementType = "master" then getMasterTarget masterProfile else getMixTarget

/-- The composite filter chain `processJob` (src/server.js:432-521) renders
for one job, by mode: the `-af` list of the pre-pass ffmpeg invocation
(src/server.js:436-444 mix, 464-472 4d, 492-498 master) followed by the
`-af` list of the final invocation (second-pass loudnorm then safety limiter,
src/server.js:455, 481, 507).  The source's `.filter(Boolean)` is a no-op
(every entry is a non-empty string). -/
def fullFilterChain (enhancementType : String) (tags : List String)
    (focus : String) (speedMultiplier pitchSemitones : ℚ)
    (masterProfile : String) (m : LoudnormMeasured) : List FilterOp :=
  if enhancementType = "mix" then
    [.lit "highpass=f=30", .lit "lowpass=f=18000",
     .lit "acompressor=threshold=-20dB:ratio=2.0:attack=25:release=160:makeup=1.0",
     .lit "stereotools=mlev=1:slev=1.12"] ++
      buildAdaptiveTone tags ++ getFocusFilters focus ++
      buildTempoPitch speedMultiplier pitchSemitones ++
      [.loudnorm2 getMixTarget m, finalLimiter]
  else if enhancementType = "4d" then
    [.lit "highpass=f=30", .lit "stereotools=mlev=1:slev=1.28",
     .lit "apulsator=hz=0.12:amount=0.30", .lit "aecho=0.8:0.85:40:0.10"] ++
      buildAdaptiveTone tags ++ getFocusFilters focus ++
      buildTempoPitch speedMultiplier pitchSemitones ++
      [.loudnorm2 getMixTarget m, finalLimiter]
  else if enhancementType = "master" then
    [.lit "highpass=f=25",
     .lit "acompressor=threshold=-22dB:ratio=1.8:attack=15:release=120:makeup=1.0"] ++
      buildAdaptiveTone tags ++ getFocusFilters focus ++
      buildTempoPitch speedMultiplier pitchSemitones ++
      [.loudnorm2 (getMasterTarget masterProfile) m, finalLimiter]
  else []

/-- A pre-gain (headroom attenuation) operation.  The only pre-gain /
`volume` filter anywhere in the repository is `part_000`'s `volume=0.85`
(src/unnamed/part_000:391), so an operation is a pre-gain exactly when it is
that filter. -/
def isPreGain (op : FilterOp) : Bool :=
  decide (op = FilterOp.lit "volume=0.85")

/-- `preGain` of the earlier pipeline version (src/unnamed/part_000:391):
a single `volume=0.85` attenuation when the analysis tagged `too_loud`. -/
def preGainV0 (tags : List String) : List FilterOp :=
  if "too_loud" ∈ tags then [.lit "volume=0.85"] else []

/-- `buildAdaptiveTone` of the earlier pipeline version
(src/unnamed/part_000:115-137). -/
def buildAdaptiveToneV0 (tags : List String) : List FilterOp :=
  (if "low_end_weak" ∈ tags then [.lit "bass=g=6:f=100:w=0.6"] else []) ++
  (if "low_end_heavy" ∈ tags then
      [.lit "bass=g=-4:f=110:w=0.7", .lit "equalizer=f=250:t=q:w=1:g=-2"]
    else []) ++
  (if "harsh_highs" ∈ tags then
      [.lit "treble=g=-4:f=9000:w=0.5", .lit "equalizer=f=3500:t=q:w=1:g=-1"]
    else []) ++
  (if "dull_highs" ∈ tags then [.lit "treble=g=3:f=9000:w=0.5"] else []) ++
  (if "mid_forward" ∈ tags then [.lit "equalizer=f=320:t=q:w=1:g=-3"] else [])

/-- `getFocusFilters` of the earlier pipeline version
(src/unnamed/part_000:139-164). -/
def getFocusFiltersV0 (focus : String) : List FilterOp :=
  if focus = "bass" then
    [.lit "bass=g=8:f=90:w=0.7",
     .lit "acompressor=threshold=-18dB:ratio=2.2:attack=20:release=140:makeup=2"]
  else if focus = "presence" then
    [.lit "equalizer=f=3500:t=q:w=1:g=3.5", .lit "equalizer=f=6000:t=q:w=1:g=1.5"]
  else if focus = "air" then [.lit "treble=g=5:f=10000:w=0.6"]
  else if focus = "wide" then
    [.lit "stereotools=mlev=1:slev=1.45", .lit "extrastereo=m=2.5"]
  else if focus = "punch" then
    [.lit "acompressor=threshold=-16dB:ratio=3:attack=6:release=70:makeup=3",
     .lit "equalizer=f=120:t=q:w=1:g=1.5", .lit "equalizer=f=3000:t=q:w=1:g=1.5"]
  else []

/-- Mode-specific core chain of the earlier pipeline version
(src/unnamed/part_000:418-423 for mix, 441-446 for 4d, 483-486 for master). -/
def coreChainV0 (enhancementType : String) : List FilterOp :=
  if enhancementType = "mix" then
    [.lit "highpass=f=30", .lit "lowpass=f=18000",
     .lit "acompressor=threshold=-18dB:ratio=2.5:attack=18:release=120:makeup=3",
     .lit "stereotools=mlev=1:slev=1.18"]
  else if enhancementType = "4d" then
    [.lit "highpass=f=30", .lit "stereotools=mlev=1:slev=1.35",
     .lit "apulsator=hz=0.12:amount=0.35", .lit "aecho=0.8:0.85:40:0.12"]
  else if enhancementType = "master" then
    [.lit "highpass=f=25",
     .lit "acompressor=threshold=-20dB:ratio=2:attack=10:release=100:makeup=2"]
  else []

/-- Final limiter of the earlier pipeline version, per mode
(src/unnamed/part_000:412-413 and 454). -/
def finalLimiterV0 (enhancementType : String) : FilterOp :=
  if enhancementType = "mix" then .lit "alimiter=limit=0.99:attack=5:release=80"
  else if enhancementType = "4d" then .lit "alimiter=limit=0.98:attack=3:release=60"
  else .lit "alimiter=limit=0.98:attack=2:release=50"

/-- The single-invocation `-af` chain of the earlier pipeline version
(src/unnamed/part_000:425-432 for mix, 448-455 for 4d, 493-501 for master):
pre-gain, core, adaptive tone, focus, tempo/pitch, then (master only) the
second-pass loudnorm, then the mode's final limiter. -/
def fullFilterChainV0 (enhancementType : String) (tags : List String)
    (focus : String) (speedMultiplier pitchSemitones : ℚ)
    (masterProfile : String) (m : LoudnormMeasured) : List FilterOp :=
  if enhancementType = "mix" ∨ enhancementType = "4d" ∨ enhancementType = "master" then
    preGainV0 tags ++ coreChainV0 enhancementType ++ buildAdaptiveToneV0 tags ++
      getFocusFiltersV0 focus ++ buildTempoPitch speedMultiplier pitchSemitones ++
      (if enhancementType = "master" then
          [.loudnorm2 (getMasterTarget masterProfile) m]
        else []) ++
      [finalLimiterV0 enhancementType]
  else []

/-- Exact duration-scaling factor, represented as `q * 2 ^ e` with `q e : ℚ`
(the exponent is kept symbolic so that `2 ^ (p / 12)` stays exact). -/
structure ScaleF where
  q : ℚ
  e : ℚ
  deriving DecidableEq, Repr

/-- Multiplication of duration-scaling factors:
`(q1 * 2^e1) * (q2 * 2^e2) = (q1 * q2) * 2^(e1 + e2)`. -/
def ScaleF.mul (a b : ScaleF) : ScaleF := ⟨a.q * b.q, a.e + b.e⟩

/-- Duration-scaling factor of one filter operation: `atempo=t` multiplies
duration by `1/t`; `asetrate=48000*2^(p/12)` reinterprets the samples at a
higher rate, multiplying duration by `2^(-p/12)`; the counter tempo scaling
`atempo=1/2^(p/12)` multiplies duration by `2^(p/12)`; resampling back to
48000 Hz, sample-format conversion, loudness normalization and limiting
preserve duration. -/
def durFactor : FilterOp → ScaleF
  | .lit _ => ⟨1, 0⟩
  | .atempo t => ⟨1 / t, 0⟩
  | .asetratePow2 p => ⟨1, -(p / 12)⟩
  | .atempoInvPow2 p => ⟨1, p / 12⟩
  | .loudnorm2 _ _ => ⟨1, 0⟩

/-- Net duration-scaling factor of a filter chain. -/
def netDurFactor (c : List FilterOp) : ScaleF :=
  (c.map durFactor).foldl ScaleF.mul ⟨1, 0⟩

/-- Parameter list of the second-pass loudnorm filter built by
`loudnormSecondPassFilter` (src/server.js:230-236), in the order the source
template concatenates them; the trailing `linear=true` is a fixed flag with no
numeric value.  The textual filter is `"loudnorm="` followed by
`key=value` pairs joined with `":"` (see `loudnormSecondPassFilter`). -/
def loudnormSecondPassParams (target : MasterTarget) (m : LoudnormMeasured) :
    List (String × ℚ) :=
  [("I", target.I), ("TP", target.TP), ("LRA", target.LRA),
   ("measured_I", m.input_i), ("measured_TP", m.input_tp),
   ("measured_LRA", m.input_lra), ("measured_thresh", m.input_thresh),
   ("offset", m.target_offset)]

/-- Serialization of the second-pass loudnorm filter (src/server.js:230-236),
the single serialization point from the typed parameter list to the engine's
textual syntax. -/
def loudnormSecondPassFilter (target : MasterTarget) (m : LoudnormMeasured) :
    String :=
  "loudnorm=" ++
    String.intercalate ":"
      ((loudnormSecondPassParams target m).map fun kv => kv.1 ++ "=" ++ toString kv.2) ++
    ":linear=true"

/-- The immutable request record stored on a job at creation
(src/server.js:288-295). -/
structure JobRequest where
  inputFileUrl : String
  enhancementType : String
  speedMultiplier : ℚ
  pitchSemitones : ℚ
  focus : String
  masterProfile : String
  deriving DecidableEq, Repr

/-- The `analysis` object stored on a job (src/server.js:400-406). -/
structure JobAnalysis where
  tags : List String
  profile : SpectralProfile
  summary : String
  deriving DecidableEq, Repr

/-- The `actions` part of the render plan (src/server.js:415-423). -/
structure RenderActions where
  adaptiveToneFilters : List FilterOp
  focus : String
  focusFilters : List FilterOp
  speedMultiplier : ℚ
  pitchSemitones : ℚ
  enhancementType : String
  masterProfile : String
  deriving DecidableEq, Repr

/-- The `safety` part of the render plan (src/server.js:424-427). -/
structure RenderSafety where
  mixTarget : MasterTarget
  masterTarget : MasterTarget
  deriving DecidableEq, Repr

/-- The render plan stored on a job (src/server.js:413-428). -/
structure RenderPlan where
  tags : List String
  actions : RenderActions
  safety : RenderSafety
  deriving DecidableEq, Repr

/-- `summary` string of the analysis (src/server.js:396-398). -/
def mkSummary (tags : List String) : String :=
  if tags = [] then "Detected: balanced"
  else "Detected: " ++ String.intercalate ", " tags

/-- The analysis record `processJob` stores (src/server.js:400-406), given the
measured spectral profile. -/
def mkAnalysis (profile : SpectralProfile) : JobAnalysis :=
  { tags := analyzeBandsTags profile, profile := profile,
    summary := mkSummary (analyzeBandsTags profile) }

/-- The render plan `processJob` builds (src/server.js:413-428). -/
def mkRenderPlan (req : JobRequest) (tags : List String) : RenderPlan :=
  { tags := tags,
    actions :=
      { adaptiveToneFilters := buildAdaptiveTone tags, focus := req.focus,
        focusFilters := getFocusFilters req.focus,
        speedMultiplier := req.speedMultiplier,
        pitchSemitones := req.pitchSemitones,
        enhancementType := req.enhancementType,
        masterProfile := req.masterProfile },
    safety :=
      { mixTarget := getMixTarget,
        masterTarget := getMasterTarget req.masterProfile } }

/-- A job record in the in-memory `jobs` map (timestamps omitted). -/
structure JobRec where
  status : JobStatus
  step : Option String
  request : Option JobRequest
  analysis : Option JobAnalysis
  renderPlan : Option RenderPlan
  error : Option String
  enhancedFileUrl : Option String
  deriving DecidableEq, Repr

/-- One `setJob` patch (src/server.js:22-24): the fields present in the patch
object; absent fields keep their previous value under the JS spread merge. -/
structure JobPatch where
  status : Option JobStatus := none
  step : Option String := none
  request : Option JobRequest := none
  analysis : Option JobAnalysis := none
  renderPlan : Option RenderPlan := none
  error : Option String := none
  enhancedFileUrl : Option String := none
  deriving DecidableEq, Repr

/-- `setJob`'s merge `{ ...old, ...patch }` (src/server.js:22-24): a field
present in the patch overrides, an absent one is kept. -/
def applyPatch (j : JobRec) (p : JobPatch) : JobRec :=
  { status := p.status.getD j.status,
    step := p.step <|> j.step,
    request := p.request <|> j.request,
    analysis := p.analysis <|> j.analysis,
    renderPlan := p.renderPlan <|> j.renderPlan,
    error := p.error <|> j.error,
    enhancedFileUrl := p.enhancedFileUrl <|> j.enhancedFileUrl }

/-- One step of `processJob`'s straight-line body: either a `setJob` patch or
a fallible operation (an ffmpeg invocation, the input fetch, a measurement
parse, or the output existence check) that succeeds or throws the given
error text. -/
inductive PipeItem where
  | set (p : JobPatch)
  | op (ok : Bool) (errMsg : String)
  deriving DecidableEq, Repr

/-- Execute `processJob`'s body items in order: patches update the job record
(the trace collects the record after each patch), and the first failing
operation aborts with its error text, as a JS `throw` would. -/
def runItems (j : JobRec) : List PipeItem → List JobRec × JobRec × Option String
  | [] => ([], j, none)
  | .set p :: rest =>
      let j2 := applyPatch j p
      let r := runItems j2 rest
      (j2 :: r.1, r.2)
  | .op true _ :: rest => runItems j rest
  | .op false msg :: _ => ([], j, some msg)

/-- Outcome environment of one `processJob` run: which external operations
succeed, the measured spectral profile, the error texts of failing ffmpeg
invocations, and the state of the output artifact after rendering
(`outExists` / `outSize`; src/server.js:523 consults only existence, while
src/unnamed/part_001:310-312 also consulted the size). -/
structure PipeEnv where
  publicBaseUrl : String
  fetchOk : Bool
  fetchStatus : ℕ
  decodeOk : Bool
  decodeErr : String
  analyzeOk : Bool
  analyzeErr : String
  bandProfile : SpectralProfile
  preRenderOk : Bool
  preRenderErr : String
  measureOk : Bool
  measureErr : String
  finalRenderOk : Bool
  finalRenderErr : String
  outExists : Bool
  outSize : ℕ
  deriving DecidableEq, Repr

/-- Items common to all modes (src/server.js:386-429): fetch, decode,
analysis and the analysis / render-plan patches.  A failing
`loudnormMeasure` throw (ffmpeg failure or `Loudnorm measurement failed
(JSON missing)`) is carried as the corresponding env error text. -/
def commonItems (req : JobRequest) (env : PipeEnv) : List PipeItem :=
  [.op env.fetchOk ("Failed to fetch input file: " ++ toString env.fetchStatus),
   .set { step := some "Decoding & preparing audio..." },
   .op env.decodeOk env.decodeErr,
   .set { step := some "Analyzing tone & dynamics..." },
   .op env.analyzeOk env.analyzeErr,
   .set { analysis := some (mkAnalysis env.bandProfile) },
   .set { renderPlan := some (mkRenderPlan req (analyzeBandsTags env.bandProfile)) }]

/-- Mode-dependent finalization step label for master (src/server.js:509-518). -/
def masterFinalStep (masterProfile : String) : String :=
  if masterProfile = "apple_music" then "Finalizing Apple Music master..."
  else if masterProfile = "soundcloud" then "Finalizing SoundCloud master..."
  else if masterProfile = "loud" then "Finalizing loud master..."
  else "Finalizing Spotify master..."

/-- Mode-specific items of `processJob` (src/server.js:432-459 mix,
461-485 4d, 487-521 master): step labels interleaved with the pre-pass
render, the loudnorm measure pass and the final render. -/
def modeItems (req : JobRequest) (env : PipeEnv) : List PipeItem :=
  if req.enhancementType = "mix" then
    [.set { step := some "Applying mix enhancements (EQ/Dynamics/Space)..." },
     .op env.preRenderOk env.preRenderErr,
     .set { step := some "Balancing loudness & true peak (EBU R128)..." },
     .op env.measureOk env.measureErr,
     .set { step := some "Finalizing mix..." },
     .op env.finalRenderOk env.finalRenderErr]
  else if req.enhancementType = "4d" then
    [.set { step := some "Creating 4D space..." },
     .op env.preRenderOk env.preRenderErr,
     .set { step := some "Balancing loudness & true peak..." },
     .op env.measureOk env.measureErr,
     .set { step := some "Finalizing 4D output..." },
     .op env.finalRenderOk env.finalRenderErr]
  else if req.enhancementType = "master" then
    [.set { step := some "Measuring loudness (LUFS/True Peak)..." },
     .op env.preRenderOk env.preRenderErr,
     .set { step := some "Normalizing to platform target (EBU R128 / BS.1770)..." },
     .op env.measureOk env.measureErr,
     .set { step := some (masterFinalStep req.masterProfile) },
     .op env.finalRenderOk env.finalRenderErr]
  else []

/-- Body items of `processJob` after the initial `processing` patch: the
common stage, the mode stage and the final output existence check
(src/server.js:523, `Output missing after render`). -/
def pipelineTail (req : JobRequest) (env : PipeEnv) : List PipeItem :=
  commonItems req env ++ modeItems req env ++
    [.op env.outExists "Output missing after render"]

/-- All body items of `processJob` (src/server.js:375-523), starting with the
`processing` status patch of line 376. -/
def processItems (req : JobRequest) (env : PipeEnv) : List PipeItem :=
  .set { status := some JobStatus.processing, step := some "Downloading audio..." } ::
    pipelineTail req env

/-- A classification event (src/server.js:52-61, 307-316, 525-533); the
`id`/`createdAt`/`jobId` bookkeeping fields are omitted. -/
structure ClassEvent where
  eventType : String
  request : Option JobRequest
  analysis : Option JobAnalysis
  renderPlan : Option RenderPlan
  error : Option String
  deriving DecidableEq, Repr

/-- Result of one full `processJob` execution: the successive job records,
the final record, the classification event logged at the end, and the error
text if some stage threw. -/
structure PipelineRun where
  trace : List JobRec
  finalRec : JobRec
  event : ClassEvent
  err : Option String
  deriving DecidableEq, Repr

/-- The job record the `/enhance` handler creates (src/server.js:285-296):
status `queued` with the immutable request attached. -/
def initialJob (req : JobRequest) : JobRec :=
  { status := JobStatus.queued, step := none, request := some req,
    analysis := none, renderPlan := none, error := none,
    enhancedFileUrl := none }

/-- One full `processJob` run (src/server.js:375-540) together with the
handler's rejection path of the returned promise (src/server.js:305-317):
on the first thrown error the job is patched to `failed` with the error text
and a `render_failed` event carrying the job's current `request`/`analysis`/
`renderPlan` is logged; on success a `render_completed` event is logged and
the job is patched to `done` with its download reference. -/
def runProcessJob (jobId : String) (j0 : JobRec) (req : JobRequest)
    (env : PipeEnv) : PipelineRun :=
  match runItems j0 (processItems req env) with
  | (tr, jLast, some msg) =>
      let jF := applyPatch jLast { status := some JobStatus.failed, error := some msg }
      { trace := tr ++ [jF], finalRec := jF,
        event :=
          { eventType := "render_failed", request := jF.request,
            analysis := jF.analysis, renderPlan := jF.renderPlan,
            error := some msg },
        err := some msg }
  | (tr, jLast, none) =>
      let jF := applyPatch jLast
        { status := some JobStatus.done,
          enhancedFileUrl := some (env.publicBaseUrl ++ "/download/" ++ jobId) }
      { trace := tr ++ [jF], finalRec := jF,
        event :=
          { eventType := "render_completed", request := jLast.request,
            analysis := jLast.analysis, renderPlan := jLast.renderPlan,
            error := none },
        err := none }

/-- The pipeline run of a freshly submitted job. -/
def pipelineRunOf (jobId : String) (req : JobRequest) (env : PipeEnv) :
    PipelineRun :=
  runProcessJob jobId (initialJob req) req env

/-- The successive job records of one submitted job, beginning with the
`queued` record the handler creates. -/
def jobTrace (jobId : String) (req : JobRequest) (env : PipeEnv) :
    List JobRec :=
  initialJob req :: (pipelineRunOf jobId req env).trace

/-- The output artifact check of the earlier pipeline version
(src/unnamed/part_001:310-312): `Output file missing after render` when the
file does not exist, `Output file is empty` when its size is zero. -/
def outputCheckV1 (outExists : Bool) (outSize : ℕ) : Option String :=
  if ¬ outExists then some "Output file missing after render"
  else if outSize = 0 then some "Output file is empty"
  else none

/-- A request body for `/enhance` (src/server.js:255-264); a `none` field was
absent from the JSON body. -/
structure EnhanceBody where
  inputFileUrl : Option String
  enhancementType : Option String
  speedMultiplier : Option ℚ
  pitchSemitones : Option ℚ
  focus : Option String
  masterProfile : Option String
  deriving DecidableEq, Repr

/-- Synchronous outcome of the `/enhance` handler: the validation error (if
rejected), the created `queued` job record, and the request passed to
`processJob` (if started).  Classification events are only ever produced by
`runProcessJob`, so a rejected submission (no started pipeline) logs none. -/
structure HandlerResult where
  error : Option String
  createdJob : Option JobRec
  pipelineStarted : Option JobRequest
  deriving DecidableEq, Repr

/-- The `/enhance` validation and job creation (src/server.js:255-319).
`Number(x ?? d)` / `String(x ?? d)` defaulting is `Option.getD`; the JS falsy
test `!inputFileUrl` rejects both an absent and an empty URL; an absent
`enhancementType` fails the `includes` test exactly as `getD ""` does. -/
def handleEnhance (b : EnhanceBody) : HandlerResult :=
  let speedMultiplier := b.speedMultiplier.getD 1
  let pitchSemitones := b.pitchSemitones.getD 0
  let focus := b.focus.getD "none"
  let masterProfile := b.masterProfile.getD "spotify"
  if b.inputFileUrl.getD "" = "" then
    { error := some "Missing inputFileUrl", createdJob := none, pipelineStarted := none }
  else if b.enhancementType.getD "" ∉ (["mix", "master", "4d"] : List String) then
    { error := some "Invalid enhancementType", createdJob := none, pipelineStarted := none }
  else if ¬ (1 / 2 ≤ speedMultiplier ∧ speedMultiplier ≤ 2) then
    { error := some "Invalid speedMultiplier", createdJob := none, pipelineStarted := none }
  else if ¬ (-4 ≤ pitchSemitones ∧ pitchSemitones ≤ 4) then
    { error := some "Invalid pitchSemitones", createdJob := none, pipelineStarted := none }
  else if focus ∉ (["none", "bass", "presence", "air", "wide", "punch"] : List String) then
    { error := some "Invalid focus", createdJob := none, pipelineStarted := none }
  else if masterProfile ∉ (["spotify", "apple_music", "soundcloud", "loud"] : List String) then
    { error := some "Invalid masterProfile", createdJob := none, pipelineStarted := none }
  else
    let req : JobRequest :=
      { inputFileUrl := b.inputFileUrl.getD "",
        enhancementType := b.enhancementType.getD "",
        speedMultiplier := speedMultiplier, pitchSemitones := pitchSemitones,
        focus := focus, masterProfile := masterProfile }
    { error := none, createdJob := some (initialJob req),
      pipelineStarted := some req }

/-- An item whose patch leaves `status` unchanged. -/
def keepsStatus : PipeItem → Bool
  | .set p => p.status.isNone
  | .op _ _ => true

/-- An item whose patch leaves `request` unchanged. -/
def keepsRequest : PipeItem → Bool
  | .set p => p.request.isNone
  | .op _ _ => true

/-- A concrete valid mix request (all optional fields defaulted). -/
def reqMix0 : JobRequest :=
  { inputFileUrl := "http://in/a.wav", enhancementType := "mix",
    speedMultiplier := 1, pitchSemitones := 0, focus := "none",
    masterProfile := "spotify" }

/-- A concrete submission body carrying only the two required fields. -/
def bodyValidMix : EnhanceBody :=
  { inputFileUrl := some "http://in/a.wav", enhancementType := some "mix",
    speedMultiplier := none, pitchSemitones := none, focus := none,
    masterProfile := none }

/-- A concrete environment in which every pipeline operation succeeds and the
output artifact exists but is empty (size 0). -/
def envAllOk : PipeEnv :=
  { publicBaseUrl := "http://localhost:10000", fetchOk := true,
    fetchStatus := 200, decodeOk := true, decodeErr := "",
    analyzeOk := true, analyzeErr := "",
    bandProfile :=
      { lowMean := some (-18), midMean := some (-14), highMean := some (-20),
        fullMean := some (-16), fullMax := some (-5) },
    preRenderOk := true, preRenderErr := "", measureOk := true,
    measureErr := "", finalRenderOk := true, finalRenderErr := "",
    outExists := true, outSize := 0 }

/-- `envAllOk` with the input fetch failing with HTTP 404. -/
def envFetchFail : PipeEnv := { envAllOk with fetchOk := false, fetchStatus := 404 }

/-- A concrete submission body with `speedMultiplier = 3.0` (out of range). -/
def bodySpeed3 : EnhanceBody :=
  { inputFileUrl := some "http://in/a.wav", enhancementType := some "mix",
    speedMultiplier := some 3, pitchSemitones := none, focus := none,
    masterProfile := none }

lemma mem_lowMidTags (p : SpectralProfile) (s : String) :
    s ∈ lowMidTags p ↔
      ∃ low mid, p.lowMean = some low ∧ p.midMean = some mid ∧
        ((s = "low_end_weak" ∧ low - mid < -8) ∨
         (s = "low_end_heavy" ∧ low - mid > 6)) := by
  unfold lowMidTags
  cases hl : p.lowMean with
  | none => simp
  | some low =>
    cases hm : p.midMean with
    | none => simp
    | some mid =>
      dsimp only
      split_ifs with h1 h2 <;> simp_all

lemma mem_highMidTags (p : SpectralProfile) (s : String) :
    s ∈ highMidTags p → s = "harsh_highs" ∨ s = "dull_highs" := by
  unfold highMidTags
  cases p.highMean with
  | none => simp
  | some high =>
    cases p.midMean with
    | none => simp
    | some mid =>
      dsimp only
      split_ifs <;> simp_all

lemma mem_midFullTags (p : SpectralProfile) (s : String) :
    s ∈ midFullTags p → s = "mid_forward" := by
  unfold midFullTags
  cases p.midMean with
  | none => simp
  | some mid =>
    cases p.fullMean with
    | none => simp
    | some full =>
      dsimp only
      split_ifs <;> simp_all

lemma mem_peakTags (p : SpectralProfile) (s : String) :
    s ∈ peakTags p → s = "too_loud" := by
  unfold peakTags
  cases p.fullMax with
  | none => simp
  | some fullMax =>
    dsimp only
    split_ifs <;> simp_all

lemma mem_quietTags (p : SpectralProfile) (s : String) :
    s ∈ quietTags p → s = "too_quiet" := by
  unfold quietTags
  cases p.fullMean with
  | none => simp
  | some fullMean =>
    dsimp only
    split_ifs <;> simp_all

lemma mem_analyzeBandsTags_low (p : SpectralProfile) (s : String)
    (hs : s = "low_end_weak" ∨ s = "low_end_heavy") :
    s ∈ analyzeBandsTags p ↔ s ∈ lowMidTags p := by
  unfold analyzeBandsTags
  simp only [List.mem_append]
  constructor
  · rintro ((((h | h) | h) | h) | h)
    · exact h
    · have h2 := mem_highMidTags p s h
      rcases hs with rfl | rfl <;> rcases h2 with h2 | h2 <;> exact absurd h2 (by decide)
    · have h2 := mem_midFullTags p s h
      rcases hs with rfl | rfl <;> exact absurd h2 (by decide)
    · have h2 := mem_peakTags p s h
      rcases hs with rfl | rfl <;> exact absurd h2 (by decide)
    · have h2 := mem_quietTags p s h
      rcases hs with rfl | rfl <;> exact absurd h2 (by decide)
  · intro h
    exact Or.inl (Or.inl (Or.inl (Or.inl h)))

/-- Claim C1: for a profile whose four band means are all finite,
`low_end_weak` is tagged iff (low − mid) < −8 and `low_end_heavy` iff
(low − mid) > 6 (both comparisons strict, so low − mid = −8 yields no
`low_end_weak`), and no profile ever carries both tags at once. -/
theorem c1_band_thresholds (p : SpectralProfile) (low mid high full : ℚ)
    (hl : p.lowMean = some low) (hm : p.midMean = some mid)
    (hh : p.highMean = some high) (hf : p.fullMean = some full) :
    (("low_end_weak" ∈ analyzeBandsTags p) ↔ low - mid < -8) ∧
    (("low_end_heavy" ∈ analyzeBandsTags p) ↔ low - mid > 6) ∧
    (∀ q : SpectralProfile,
      ¬ ("low_end_weak" ∈ analyzeBandsTags q ∧
         "low_end_heavy" ∈ analyzeBandsTags q)) := by
  refine ⟨?_, ?_, ?_⟩
  · rw [mem_analyzeBandsTags_low p _ (Or.inl rfl), mem_lowMidTags]
    constructor
    · rintro ⟨a, b, ha, hb, (⟨_, hlt⟩ | ⟨hne, _⟩)⟩
      · rw [hl] at ha; rw [hm] at hb
        cases ha; cases hb; exact hlt
      · exact absurd hne (by simp)
    · intro hlt; exact ⟨low, mid, hl, hm, Or.inl ⟨rfl, hlt⟩⟩
  · rw [mem_analyzeBandsTags_low p _ (Or.inr rfl), mem_lowMidTags]
    constructor
    · rintro ⟨a, b, ha, hb, (⟨hne, _⟩ | ⟨_, hgt⟩)⟩
      · exact absurd hne (by simp)
      · rw [hl] at ha; rw [hm] at hb
        cases ha; cases hb; exact hgt
    · intro hgt; exact ⟨low, mid, hl, hm, Or.inr ⟨rfl, hgt⟩⟩
  · rintro q ⟨hw, hv⟩
    rw [mem_analyzeBandsTags_low q _ (Or.inl rfl), mem_lowMidTags] at hw
    rw [mem_analyzeBandsTags_low q _ (Or.inr rfl), mem_lowMidTags] at hv
    obtain ⟨a, b, ha, hb, hw⟩ := hw
    obtain ⟨c, d, hc, hd, hv⟩ := hv
    rw [ha] at hc; rw [hb] at hd
    cases hc; cases hd
    rcases hw with ⟨_, hlt⟩ | ⟨hne, _⟩
    · rcases hv with ⟨hne, _⟩ | ⟨_, hgt⟩
      · exact absurd hne (by simp)
      · linarith
    · exact absurd hne (by simp)

/-- Witness for C1 at a concrete profile with low − mid = −10. -/
theorem c1_band_thresholds_witness :
    (("low_end_weak" ∈
        analyzeBandsTags ⟨some (-20), some (-10), some (-12), some (-15), some (-3)⟩) ↔
      ((-20 : ℚ) - (-10) < -8)) ∧
    (("low_end_heavy" ∈
        analyzeBandsTags ⟨some (-20), some (-10), some (-12), some (-15), some (-3)⟩) ↔
      ((-20 : ℚ) - (-10) > 6)) ∧
    (∀ q : SpectralProfile,
      ¬ ("low_end_weak" ∈ analyzeBandsTags q ∧
         "low_end_heavy" ∈ analyzeBandsTags q)) :=
  c1_band_thresholds ⟨some (-20), some (-10), some (-12), some (-15), some (-3)⟩
    (-20) (-10) (-12) (-15) rfl rfl rfl rfl

/-- Claim C3: for every valid speed in [0.5, 2] and nonzero pitch in [−4, 4],
the tempo/pitch block is the stabilization pair followed by exactly
`atempo=speed`, `asetrate=48000*2^(p/12)`, `aresample=48000`,
`atempo=1/2^(p/12)` in that order, and its net duration-scaling factor is
exactly `1/speed * 2^0` (the pitch stage's rate factor and its tempo
compensation cancel). -/
theorem c3_tempo_pitch (s p : ℚ) (hs : 1 / 2 ≤ s ∧ s ≤ 2) (hp : p ≠ 0)
    (hrange : -4 ≤ p ∧ p ≤ 4) :
    buildTempoPitch s p =
      [.lit "aresample=48000:resampler=soxr",
       .lit "aformat=sample_fmts=fltp:channel_layouts=stereo"] ++
      [.atempo s, .asetratePow2 p, .lit "aresample=48000:resampler=soxr",
       .atempoInvPow2 p] ∧
    netDurFactor (buildTempoPitch s p) = ⟨1 / s, 0⟩ := by
  constructor
  · simp [buildTempoPitch, hp]
  · simp only [buildTempoPitch, if_neg hp]
    show ScaleF.mk _ _ = _
    simp only [netDurFactor, durFactor, List.map, List.foldl, ScaleF.mul]
    refine congrArg₂ ScaleF.mk ?_ ?_ <;> ring

/-- Witness for C3 at speed 1, pitch +2 semitones. -/
theorem c3_tempo_pitch_witness :
    buildTempoPitch 1 2 =
      [.lit "aresample=48000:resampler=soxr",
       .lit "aformat=sample_fmts=fltp:channel_layouts=stereo"] ++
      [.atempo 1, .asetratePow2 2, .lit "aresample=48000:resampler=soxr",
       .atempoInvPow2 2] ∧
    netDurFactor (buildTempoPitch 1 2) = ⟨1 / 1, 0⟩ :=
  c3_tempo_pitch 1 2 (by norm_num) (by norm_num) (by norm_num)

/-- Claim C5: the second-pass loudnorm filter embeds every numeric field of
the first pass's measurement report (measured I / TP / LRA / threshold and
the computed target offset), and for a fixed target two measurement reports
that differ anywhere produce different second-pass parameter lists (the
mapping from measured values to the second-pass filter is injective). -/
theorem c5_second_pass_embedding (target : MasterTarget)
    (m m2 : LoudnormMeasured) (hne : m ≠ m2) :
    ("measured_I", m.input_i) ∈ loudnormSecondPassParams target m ∧
    ("measured_TP", m.input_tp) ∈ loudnormSecondPassParams target m ∧
    ("measured_LRA", m.input_lra) ∈ loudnormSecondPassParams target m ∧
    ("measured_thresh", m.input_thresh) ∈ loudnormSecondPassParams target m ∧
    ("offset", m.target_offset) ∈ loudnormSecondPassParams target m ∧
    loudnormSecondPassParams target m ≠ loudnormSecondPassParams target m2 := by
  refine ⟨by simp [loudnormSecondPassParams], by simp [loudnormSecondPassParams],
    by simp [loudnormSecondPassParams], by simp [loudnormSecondPassParams],
    by simp [loudnormSecondPassParams], ?_⟩
  intro heq
  apply hne
  cases m
  cases m2
  simp only [loudnormSecondPassParams, List.cons.injEq, Prod.mk.injEq, and_true,
    true_and] at heq
  simp_all

/-- Witness for C5: two reports differing only in measured integrated
loudness yield different second-pass parameter lists. -/
theorem c5_second_pass_embedding_witness :
    ("measured_I", (-23 : ℚ)) ∈
        loudnormSecondPassParams getMixTarget ⟨-23, -2, 6, -33, 0⟩ ∧
    ("measured_TP", (-2 : ℚ)) ∈
        loudnormSecondPassParams getMixTarget ⟨-23, -2, 6, -33, 0⟩ ∧
    ("measured_LRA", (6 : ℚ)) ∈
        loudnormSecondPassParams getMixTarget ⟨-23, -2, 6, -33, 0⟩ ∧
    ("measured_thresh", (-33 : ℚ)) ∈
        loudnormSecondPassParams getMixTarget ⟨-23, -2, 6, -33, 0⟩ ∧
    ("offset", (0 : ℚ)) ∈
        loudnormSecondPassParams getMixTarget ⟨-23, -2, 6, -33, 0⟩ ∧
    loudnormSecondPassParams getMixTarget ⟨-23, -2, 6, -33, 0⟩ ≠
      loudnormSecondPassParams getMixTarget ⟨-22, -2, 6, -33, 0⟩ :=
  c5_second_pass_embedding getMixTarget ⟨-23, -2, 6, -33, 0⟩ ⟨-22, -2, 6, -33, 0⟩
    (by decide)

lemma countP_preGain_adaptiveTone (tags : List String) :
    (buildAdaptiveTone tags).countP isPreGain = 0 := by
  unfold buildAdaptiveTone
  split_ifs <;> decide

lemma countP_preGain_focus (focus : String) :
    (getFocusFilters focus).countP isPreGain = 0 := by
  unfold getFocusFilters
  split_ifs <;> decide

lemma countP_preGain_tempoPitch (s p : ℚ) :
    (buildTempoPitch s p).countP isPreGain = 0 := by
  unfold buildTempoPitch
  split_ifs <;> simp [List.countP_cons, List.countP_nil, isPreGain]

lemma countP_preGain_adaptiveToneV0 (tags : List String) :
    (buildAdaptiveToneV0 tags).countP isPreGain = 0 := by
  unfold buildAdaptiveToneV0
  split_ifs <;> decide

lemma countP_preGain_focusV0 (focus : String) :
    (getFocusFiltersV0 focus).countP isPreGain = 0 := by
  unfold getFocusFiltersV0
  split_ifs <;> decide

lemma countP_preGain_coreChainV0 (et : String) :
    (coreChainV0 et).countP isPreGain = 0 := by
  unfold coreChainV0
  split_ifs <;> decide

lemma countP_preGain_restV0 (et : String) (tags : List String) (focus : String)
    (s p : ℚ) (mp : String) (m : LoudnormMeasured) :
    (coreChainV0 et ++ buildAdaptiveToneV0 tags ++ getFocusFiltersV0 focus ++
        buildTempoPitch s p ++
        (if et = "master" then [FilterOp.loudnorm2 (getMasterTarget mp) m]
          else []) ++
        [finalLimiterV0 et]).countP isPreGain = 0 := by
  simp only [List.countP_append, countP_preGain_coreChainV0,
    countP_preGain_adaptiveToneV0, countP_preGain_focusV0,
    countP_preGain_tempoPitch]
  have h1 : (if et = "master" then
      ([.loudnorm2 (getMasterTarget mp) m] : List FilterOp) else []).countP
        isPreGain = 0 := by
    split_ifs <;> simp [isPreGain, List.countP_cons]
  have h2 : ([finalLimiterV0 et] : List FilterOp).countP isPreGain = 0 := by
    unfold finalLimiterV0
    split_ifs <;> decide
  omega

lemma isPreGain_loudnorm2 (t : MasterTarget) (m : LoudnormMeasured) :
    isPreGain (.loudnorm2 t m) = false := rfl

lemma countP_preGain_loudTail (t : MasterTarget) (m : LoudnormMeasured) :
    ([FilterOp.loudnorm2 t m, finalLimiter] : List FilterOp).countP isPreGain = 0 := by
  simp [List.countP_cons, List.countP_nil, isPreGain, finalLimiter]

lemma fullFilterChain_factorization (et : String) (tags : List String)
    (focus : String) (s p : ℚ) (mp : String) (m : LoudnormMeasured)
    (het : et = "mix" ∨ et = "4d" ∨ et = "master") :
    fullFilterChain et tags focus s p mp m =
      coreChain et ++ buildAdaptiveTone tags ++ getFocusFilters focus ++
        buildTempoPitch s p ++
        [.loudnorm2 (loudnessTargetOf et mp) m, finalLimiter] := by
  rcases het with rfl | rfl | rfl <;>
    simp [fullFilterChain, coreChain, loudnessTargetOf]

lemma countP_preGain_fullFilterChain (et : String) (tags : List String)
    (focus : String) (s p : ℚ) (mp : String) (m : LoudnormMeasured) :
    (fullFilterChain et tags focus s p mp m).countP isPreGain = 0 := by
  unfold fullFilterChain
  split_ifs <;>
    simp [List.countP_append, List.countP_cons, List.countP_nil, isPreGain,
      countP_preGain_adaptiveTone, countP_preGain_focus,
      countP_preGain_tempoPitch, finalLimiter]

/-- Counterexample to claim C2 as stated: in `mix` mode (not only in `master`
mode) the rendered chain contains the two-pass loudness stage — the final
ffmpeg invocation of the mix branch applies the second-pass loudnorm before
the limiter (src/server.js:450-455). -/
theorem c2_chain_order_counterexample :
    FilterOp.loudnorm2 getMixTarget ⟨0, 0, 0, 0, 0⟩ ∈
      fullFilterChain "mix" [] "none" 1 0 "spotify" ⟨0, 0, 0, 0, 0⟩ := by
  simp [fullFilterChain, buildAdaptiveTone, getFocusFilters, buildTempoPitch]

/-- Claim C2, amended: for every mode the rendered chain is ordered exactly
core chain → adaptive tone → focus → tempo/pitch → loudness stage → final
limiter, where the loudness stage is present in every mode (mix/4d use the
mix safety target, master the platform target) — not only in master mode —
and no pre-gain operation ever appears in the chain. -/
theorem c2_chain_order_amended (et : String) (tags : List String)
    (focus : String) (s p : ℚ) (mp : String) (m : LoudnormMeasured)
    (het : et = "mix" ∨ et = "4d" ∨ et = "master") :
    fullFilterChain et tags focus s p mp m =
      coreChain et ++ buildAdaptiveTone tags ++ getFocusFilters focus ++
        buildTempoPitch s p ++
        [.loudnorm2 (loudnessTargetOf et mp) m, finalLimiter] ∧
    (fullFilterChain et tags focus s p mp m).countP isPreGain = 0 :=
  ⟨fullFilterChain_factorization et tags focus s p mp m het,
   countP_preGain_fullFilterChain et tags focus s p mp m⟩

/-- Witness for the amended C2 in 4d mode. -/
theorem c2_chain_order_amended_witness :
    fullFilterChain "4d" ["too_loud"] "wide" 1 2 "spotify" ⟨0, 0, 0, 0, 0⟩ =
      coreChain "4d" ++ buildAdaptiveTone ["too_loud"] ++ getFocusFilters "wide" ++
        buildTempoPitch 1 2 ++
        [.loudnorm2 (loudnessTargetOf "4d" "spotify") ⟨0, 0, 0, 0, 0⟩, finalLimiter] ∧
    (fullFilterChain "4d" ["too_loud"] "wide" 1 2 "spotify"
        ⟨0, 0, 0, 0, 0⟩).countP isPreGain = 0 :=
  c2_chain_order_amended "4d" ["too_loud"] "wide" 1 2 "spotify" ⟨0, 0, 0, 0, 0⟩
    (by simp)

/-- Counterexample to claim C6 as stated: in the current pipeline
(src/server.js) a profile tagged `too_loud` still yields a mix chain with no
pre-gain operation anywhere — `processJob` never prepends a `volume`
attenuation (the pre-gain exists only in src/unnamed/part_000:391). -/
theorem c6_pre_gain_counterexample :
    (fullFilterChain "mix" ["too_loud"] "none" 1 0 "spotify"
        ⟨0, 0, 0, 0, 0⟩).countP isPreGain = 0 :=
  countP_preGain_fullFilterChain "mix" ["too_loud"] "none" 1 0 "spotify"
    ⟨0, 0, 0, 0, 0⟩

/-- Claim C6, amended: in the current pipeline (src/server.js) no pre-gain
operation ever appears in the rendered chain, whatever the tags; in the
earlier pipeline version (src/unnamed/part_000) a single `volume=0.85`
pre-gain is prepended to the chain precisely when the analysis tagged
`too_loud`, and is the only pre-gain operation in that chain. -/
theorem c6_pre_gain_amended (et : String) (tags : List String) (focus : String)
    (s p : ℚ) (mp : String) (m : LoudnormMeasured)
    (het : et = "mix" ∨ et = "4d" ∨ et = "master") :
    ((fullFilterChain et tags focus s p mp m).countP isPreGain = 0) ∧
    ("too_loud" ∈ tags →
      ∃ rest, fullFilterChainV0 et tags focus s p mp m =
          FilterOp.lit "volume=0.85" :: rest ∧
        (fullFilterChainV0 et tags focus s p mp m).countP isPreGain = 1) ∧
    ("too_loud" ∉ tags →
      (fullFilterChainV0 et tags focus s p mp m).countP isPreGain = 0) := by
  refine ⟨countP_preGain_fullFilterChain et tags focus s p mp m, ?_, ?_⟩
  · intro htl
    have hchain : fullFilterChainV0 et tags focus s p mp m =
        FilterOp.lit "volume=0.85" ::
          (coreChainV0 et ++ buildAdaptiveToneV0 tags ++ getFocusFiltersV0 focus ++
            buildTempoPitch s p ++
            (if et = "master" then [FilterOp.loudnorm2 (getMasterTarget mp) m]
              else []) ++
            [finalLimiterV0 et]) := by
      unfold fullFilterChainV0 preGainV0
      rw [if_pos het, if_pos htl]
      simp [List.append_assoc]
    refine ⟨_, hchain, ?_⟩
    rw [hchain]
    rw [List.countP_cons_of_pos _ _ (by decide)]
    rw [countP_preGain_restV0]
  · intro htl
    have hchain : fullFilterChainV0 et tags focus s p mp m =
        coreChainV0 et ++ buildAdaptiveToneV0 tags ++ getFocusFiltersV0 focus ++
          buildTempoPitch s p ++
          (if et = "master" then [FilterOp.loudnorm2 (getMasterTarget mp) m]
            else []) ++
          [finalLimiterV0 et] := by
      unfold fullFilterChainV0 preGainV0
      rw [if_pos het, if_neg htl]
      simp [List.append_assoc]
    rw [hchain, countP_preGain_restV0]

/-- Witness for the amended C6 in mix mode with `too_loud` tagged. -/
theorem c6_pre_gain_amended_witness :
    ((fullFilterChain "mix" ["too_loud"] "bass" 1 0 "spotify"
        ⟨0, 0, 0, 0, 0⟩).countP isPreGain = 0) ∧
    ("too_loud" ∈ ["too_loud"] →
      ∃ rest, fullFilterChainV0 "mix" ["too_loud"] "bass" 1 0 "spotify"
            ⟨0, 0, 0, 0, 0⟩ =
          FilterOp.lit "volume=0.85" :: rest ∧
        (fullFilterChainV0 "mix" ["too_loud"] "bass" 1 0 "spotify"
            ⟨0, 0, 0, 0, 0⟩).countP isPreGain = 1) ∧
    ("too_loud" ∉ ["too_loud"] →
      (fullFilterChainV0 "mix" ["too_loud"] "bass" 1 0 "spotify"
          ⟨0, 0, 0, 0, 0⟩).countP isPreGain = 0) :=
  c6_pre_gain_amended "mix" ["too_loud"] "bass" 1 0 "spotify" ⟨0, 0, 0, 0, 0⟩
    (Or.inl rfl)

lemma runItems_status_of_keeps (items : List PipeItem) :
    ∀ j : JobRec, (∀ it ∈ items, keepsStatus it = true) →
      ((runItems j items).1.map JobRec.status =
        List.replicate (runItems j items).1.length j.status) ∧
      (runItems j items).2.1.status = j.status := by
  induction items with
  | nil => intro j _; simp [runItems]
  | cons it rest ih =>
    intro j h
    cases it with
    | set p =>
      have hp : p.status = none := by
        have h0 := h _ (List.mem_cons_self _ _)
        simpa [keepsStatus, Option.isNone_iff_eq_none] using h0
      have hst : (applyPatch j p).status = j.status := by
        simp [applyPatch, hp]
      have hrest := ih (applyPatch j p)
        (fun it2 hit2 => h it2 (List.mem_cons_of_mem _ hit2))
      simp only [runItems, List.map_cons, List.length_cons, hst,
        List.replicate_succ]
      exact ⟨by rw [hrest.1, hst], by rw [hrest.2, hst]⟩
    | op ok msg =>
      cases ok with
      | true =>
        have hrest := ih j (fun it2 hit2 => h it2 (List.mem_cons_of_mem _ hit2))
        simpa [runItems] using hrest
      | false => simp [runItems]

lemma runItems_request_of_keeps (items : List PipeItem) :
    ∀ j : JobRec, (∀ it ∈ items, keepsRequest it = true) →
      (∀ r ∈ (runItems j items).1, r.request = j.request) ∧
      (runItems j items).2.1.request = j.request := by
  induction items with
  | nil => intro j _; simp [runItems]
  | cons it rest ih =>
    intro j h
    cases it with
    | set p =>
      have hp : p.request = none := by
        have h0 := h _ (List.mem_cons_self _ _)
        simpa [keepsRequest, Option.isNone_iff_eq_none] using h0
      have hst : (applyPatch j p).request = j.request := by
        simp [applyPatch, hp]
      have hrest := ih (applyPatch j p)
        (fun it2 hit2 => h it2 (List.mem_cons_of_mem _ hit2))
      simp only [runItems]
      constructor
      · intro r hr
        rcases List.mem_cons.mp hr with rfl | hr2
        · exact hst
        · rw [hrest.1 r hr2, hst]
      · rw [hrest.2, hst]
    | op ok msg =>
      cases ok with
      | true =>
        have hrest := ih j (fun it2 hit2 => h it2 (List.mem_cons_of_mem _ hit2))
        simpa [runItems] using hrest
      | false => simp [runItems]

lemma keepsStatus_pipelineTail (req : JobRequest) (env : PipeEnv) :
    ∀ it ∈ pipelineTail req env, keepsStatus it = true := by
  intro it hit
  simp only [pipelineTail, commonItems, modeItems, List.mem_append,
    List.mem_cons, List.not_mem_nil, or_false] at hit
  rcases hit with (h | h) | h
  · rcases h with rfl | rfl | rfl | rfl | rfl | rfl | rfl <;> rfl
  · split_ifs at h <;>
      simp only [List.mem_cons, List.not_mem_nil, or_false] at h <;>
      rcases h with rfl | rfl | rfl | rfl | rfl | rfl <;> rfl
  · rw [h]; rfl

lemma keepsRequest_pipelineTail (req : JobRequest) (env : PipeEnv) :
    ∀ it ∈ pipelineTail req env, keepsRequest it = true := by
  intro it hit
  simp only [pipelineTail, commonItems, modeItems, List.mem_append,
    List.mem_cons, List.not_mem_nil, or_false] at hit
  rcases hit with (h | h) | h
  · rcases h with rfl | rfl | rfl | rfl | rfl | rfl | rfl <;> rfl
  · split_ifs at h <;>
      simp only [List.mem_cons, List.not_mem_nil, or_false] at h <;>
      rcases h with rfl | rfl | rfl | rfl | rfl | rfl <;> rfl
  · rw [h]; rfl

lemma jobTrace_statuses (jobId : String) (req : JobRequest) (env : PipeEnv) :
    ∃ k t, (t = JobStatus.done ∨ t = JobStatus.failed) ∧
      (jobTrace jobId req env).map JobRec.status =
        JobStatus.queued ::
          (List.replicate (k + 1) JobStatus.processing ++ [t]) := by
  have hrun : runItems (initialJob req) (processItems req env) =
      ((applyPatch (initialJob req)
          { status := some JobStatus.processing,
            step := some "Downloading audio..." }) ::
        (runItems (applyPatch (initialJob req)
          { status := some JobStatus.processing,
            step := some "Downloading audio..." }) (pipelineTail req env)).1,
       (runItems (applyPatch (initialJob req)
          { status := some JobStatus.processing,
            step := some "Downloading audio..." }) (pipelineTail req env)).2) := by
    simp [processItems, runItems]
  set j1 := applyPatch (initialJob req)
    { status := some JobStatus.processing,
      step := some "Downloading audio..." } with hj1def
  have hj1 : j1.status = JobStatus.processing := rfl
  have hkeep := runItems_status_of_keeps (pipelineTail req env) j1
    (keepsStatus_pipelineTail req env)
  rcases hres : runItems j1 (pipelineTail req env) with ⟨tr, jL, err⟩
  rw [hres] at hkeep hrun
  have htr : tr.map JobRec.status =
      List.replicate tr.length JobStatus.processing := by
    have := hkeep.1
    rwa [hj1] at this
  have hjL : jL.status = JobStatus.processing := by
    have := hkeep.2
    rwa [hj1] at this
  cases err with
  | none =>
    refine ⟨tr.length, JobStatus.done, Or.inl rfl, ?_⟩
    simp only [jobTrace, pipelineRunOf, runProcessJob, hrun]
    simp [initialJob, applyPatch, htr, List.replicate_succ, hj1]
  | some msg =>
    refine ⟨tr.length, JobStatus.failed, Or.inr rfl, ?_⟩
    simp only [jobTrace, pipelineRunOf, runProcessJob, hrun]
    simp [initialJob, applyPatch, htr, List.replicate_succ, hj1]

/-- Claim C4: a job created by an accepted submission starts `queued`, moves
to `processing` when its pipeline starts, and the statuses along its record
history are exactly `queued`, then `processing` (one or more records), then a
single terminal record that is `done` or `failed` — so exactly one terminal
state is reached and no status changes after it. -/
theorem c4_job_lifecycle (b : EnhanceBody) (req : JobRequest) (jobId : String)
    (env : PipeEnv)
    (hacc : (handleEnhance b).pipelineStarted = some req) :
    (handleEnhance b).createdJob = some (initialJob req) ∧
    ∃ k t, (t = JobStatus.done ∨ t = JobStatus.failed) ∧
      (jobTrace jobId req env).map JobRec.status =
        JobStatus.queued ::
          (List.replicate (k + 1) JobStatus.processing ++ [t]) := by
  refine ⟨?_, jobTrace_statuses jobId req env⟩
  unfold handleEnhance at hacc ⊢
  dsimp only at hacc ⊢
  split_ifs at hacc ⊢ <;>
    (simp only [Option.some.injEq] at hacc; subst hacc; rfl)

/-- Witness for C4: the default valid mix submission is accepted and its
trace is `queued`, then `processing` records, then one terminal record. -/
theorem c4_job_lifecycle_witness :
    (handleEnhance bodyValidMix).createdJob = some (initialJob reqMix0) ∧
    ∃ k t, (t = JobStatus.done ∨ t = JobStatus.failed) ∧
      (jobTrace "job1" reqMix0 envAllOk).map JobRec.status =
        JobStatus.queued ::
          (List.replicate (k + 1) JobStatus.processing ++ [t]) :=
  c4_job_lifecycle bodyValidMix reqMix0 "job1" envAllOk
    (by norm_num [handleEnhance, bodyValidMix, reqMix0]; simp)

/-- Claim C7: whenever some pipeline stage throws, the job ends `failed` with
the error text stored on the record, and a `render_failed` classification
event is emitted carrying exactly the analysis and render plan present on the
job record at failure time; when the failure is the input fetch returning a
non-success status, the error references the fetch failure and the event
carries no analysis and no render plan. -/
theorem c7_failure_event (jobId : String) (req : JobRequest) (env : PipeEnv)
    (msg : String)
    (h : (pipelineRunOf jobId req env).err = some msg) :
    (pipelineRunOf jobId req env).finalRec.status = JobStatus.failed ∧
    (pipelineRunOf jobId req env).finalRec.error = some msg ∧
    (pipelineRunOf jobId req env).event.eventType = "render_failed" ∧
    (pipelineRunOf jobId req env).event.error = some msg ∧
    (pipelineRunOf jobId req env).event.analysis =
      (pipelineRunOf jobId req env).finalRec.analysis ∧
    (pipelineRunOf jobId req env).event.renderPlan =
      (pipelineRunOf jobId req env).finalRec.renderPlan ∧
    (env.fetchOk = false →
      msg = "Failed to fetch input file: " ++ toString env.fetchStatus ∧
      (pipelineRunOf jobId req env).event.analysis = none ∧
      (pipelineRunOf jobId req env).event.renderPlan = none) := by
  rcases hres : runItems (initialJob req) (processItems req env) with ⟨tr, jL, err⟩
  cases err with
  | none =>
    exfalso
    simp [pipelineRunOf, runProcessJob, hres] at h
  | some m0 =>
    have hm : m0 = msg := by
      simpa [pipelineRunOf, runProcessJob, hres] using h
    subst hm
    refine ⟨?_, ?_, ?_, ?_, ?_, ?_, ?_⟩
    · simp [pipelineRunOf, runProcessJob, hres, applyPatch]
    · simp [pipelineRunOf, runProcessJob, hres, applyPatch]
    · simp [pipelineRunOf, runProcessJob, hres]
    · simp [pipelineRunOf, runProcessJob, hres]
    · simp [pipelineRunOf, runProcessJob, hres]
    · simp [pipelineRunOf, runProcessJob, hres]
    · intro hf
      have hcomp : runItems (initialJob req) (processItems req env) =
          ([applyPatch (initialJob req)
              { status := some JobStatus.processing,
                step := some "Downloading audio..." }],
           applyPatch (initialJob req)
              { status := some JobStatus.processing,
                step := some "Downloading audio..." },
           some ("Failed to fetch input file: " ++ toString env.fetchStatus)) := by
        simp [processItems, pipelineTail, commonItems, runItems, hf]
      rw [hres] at hcomp
      simp only [Prod.mk.injEq, Option.some.injEq] at hcomp
      obtain ⟨htr, hjL, hmsg⟩ := hcomp
      subst htr
      subst hjL
      subst hmsg
      refine ⟨rfl, ?_, ?_⟩ <;>
        · simp only [pipelineRunOf, runProcessJob]
          rw [hres]
          simp [applyPatch, initialJob]

/-- Witness for C7: with the fetch failing with HTTP 404, the default mix job
fails with the fetch error and the event carries no analysis or plan. -/
theorem c7_failure_event_witness :
    (pipelineRunOf "job1" reqMix0 envFetchFail).finalRec.status =
      JobStatus.failed ∧
    (pipelineRunOf "job1" reqMix0 envFetchFail).finalRec.error =
      some "Failed to fetch input file: 404" ∧
    (pipelineRunOf "job1" reqMix0 envFetchFail).event.eventType =
      "render_failed" ∧
    (pipelineRunOf "job1" reqMix0 envFetchFail).event.error =
      some "Failed to fetch input file: 404" ∧
    (pipelineRunOf "job1" reqMix0 envFetchFail).event.analysis =
      (pipelineRunOf "job1" reqMix0 envFetchFail).finalRec.analysis ∧
    (pipelineRunOf "job1" reqMix0 envFetchFail).event.renderPlan =
      (pipelineRunOf "job1" reqMix0 envFetchFail).finalRec.renderPlan ∧
    (envFetchFail.fetchOk = false →
      "Failed to fetch input file: 404" =
        "Failed to fetch input file: " ++ toString envFetchFail.fetchStatus ∧
      (pipelineRunOf "job1" reqMix0 envFetchFail).event.analysis = none ∧
      (pipelineRunOf "job1" reqMix0 envFetchFail).event.renderPlan = none) :=
  c7_failure_event "job1" reqMix0 envFetchFail
    "Failed to fetch input file: 404" (by decide)

/-- Counterexample to claim C9 as stated: in src/server.js an existing but
empty output artifact (size 0) passes the post-render check — only existence
is tested (src/server.js:523) — so the job reaches `done` instead of raising
an integrity error. -/
theorem c9_output_check_counterexample :
    envAllOk.outExists = true ∧ envAllOk.outSize = 0 ∧
    (pipelineRunOf "job1" reqMix0 envAllOk).err = none ∧
    (pipelineRunOf "job1" reqMix0 envAllOk).finalRec.status = JobStatus.done := by
  refine ⟨rfl, rfl, ?_, ?_⟩ <;> decide

/-- Claim C9, amended: after the final render src/server.js verifies only
that the output artifact exists — a missing output raises the integrity error
`Output missing after render` and the job fails, while an existing output
lets the job reach `done` whatever its size; the non-emptiness half of the
check exists only in the earlier pipeline version (src/unnamed/part_001:
310-312), whose check rejects exactly the missing-or-empty outputs. -/
theorem c9_output_check_amended (jobId : String) (req : JobRequest)
    (env : PipeEnv) (h1 : env.fetchOk = true) (h2 : env.decodeOk = true)
    (h3 : env.analyzeOk = true) (h4 : env.preRenderOk = true)
    (h5 : env.measureOk = true) (h6 : env.finalRenderOk = true) :
    ((env.outExists = false →
        (pipelineRunOf jobId req env).err = some "Output missing after render" ∧
        (pipelineRunOf jobId req env).finalRec.status = JobStatus.failed) ∧
     (env.outExists = true →
        (pipelineRunOf jobId req env).err = none ∧
        (pipelineRunOf jobId req env).finalRec.status = JobStatus.done)) ∧
    (∀ (outExists : Bool) (outSize : ℕ),
        outputCheckV1 outExists outSize = none ↔
          (outExists = true ∧ outSize ≠ 0)) := by
  constructor
  · constructor <;> intro hx <;>
      by_cases e1 : req.enhancementType = "mix" <;>
      by_cases e2 : req.enhancementType = "4d" <;>
      by_cases e3 : req.enhancementType = "master" <;>
        simp [pipelineRunOf, runProcessJob, runItems, processItems,
          pipelineTail, commonItems, modeItems, applyPatch,
          h1, h2, h3, h4, h5, h6, hx, e1, e2, e3]
  · intro outExists outSize
    cases outExists with
    | false => simp [outputCheckV1]
    | true =>
      by_cases hsz : outSize = 0 <;> simp [outputCheckV1, hsz]

/-- Witness for the amended C9: the all-success environment with an existing
(empty) output reaches `done`; and the part_001 check accepts exactly
existing non-empty outputs. -/
theorem c9_output_check_amended_witness :
    ((envAllOk.outExists = false →
        (pipelineRunOf "job1" reqMix0 envAllOk).err =
          some "Output missing after render" ∧
        (pipelineRunOf "job1" reqMix0 envAllOk).finalRec.status =
          JobStatus.failed) ∧
     (envAllOk.outExists = true →
        (pipelineRunOf "job1" reqMix0 envAllOk).err = none ∧
        (pipelineRunOf "job1" reqMix0 envAllOk).finalRec.status =
          JobStatus.done)) ∧
    (∀ (outExists : Bool) (outSize : ℕ),
        outputCheckV1 outExists outSize = none ↔
          (outExists = true ∧ outSize ≠ 0)) :=
  c9_output_check_amended "job1" reqMix0 envAllOk rfl rfl rfl rfl rfl rfl

lemma jobTrace_request (jobId : String) (req : JobRequest) (env : PipeEnv) :
    ∀ r ∈ jobTrace jobId req env, r.request = some req := by
  have hrun : runItems (initialJob req) (processItems req env) =
      ((applyPatch (initialJob req)
          { status := some JobStatus.processing,
            step := some "Downloading audio..." }) ::
        (runItems (applyPatch (initialJob req)
          { status := some JobStatus.processing,
            step := some "Downloading audio..." }) (pipelineTail req env)).1,
       (runItems (applyPatch (initialJob req)
          { status := some JobStatus.processing,
            step := some "Downloading audio..." }) (pipelineTail req env)).2) := by
    simp [processItems, runItems]
  set j1 := applyPatch (initialJob req)
    { status := some JobStatus.processing,
      step := some "Downloading audio..." } with hj1def
  have hj1 : j1.request = some req := rfl
  have hkeep := runItems_request_of_keeps (pipelineTail req env) j1
    (keepsRequest_pipelineTail req env)
  rcases hres : runItems j1 (pipelineTail req env) with ⟨tr, jL, err⟩
  rw [hres] at hkeep hrun
  have htr : ∀ r ∈ tr, r.request = some req := by
    intro r hr
    rw [hkeep.1 r hr, hj1]
  have hjL : jL.request = some req := by rw [hkeep.2, hj1]
  intro r hr
  cases err with
  | none =>
    simp only [jobTrace, pipelineRunOf, runProcessJob, hrun, List.mem_cons,
      List.mem_append, List.mem_singleton, List.not_mem_nil, or_false] at hr
    rcases hr with rfl | (rfl | hr2) | rfl
    · rfl
    · exact hj1
    · exact htr r hr2
    · simpa [applyPatch] using hjL
  | some msg =>
    simp only [jobTrace, pipelineRunOf, runProcessJob, hrun, List.mem_cons,
      List.mem_append, List.mem_singleton, List.not_mem_nil, or_false] at hr
    rcases hr with rfl | (rfl | hr2) | rfl
    · rfl
    · exact hj1
    · exact htr r hr2
    · simpa [applyPatch] using hjL

/-- Claim C10: a submission carrying only the two required fields (a
non-empty `inputFileUrl` and a valid `enhancementType`) is accepted; the
optional fields default to speed 1.0, pitch 0, focus `none`, master profile
`spotify`, these defaults are stored verbatim in the created job's request
record, and no later record of the job's pipeline ever changes that
request. -/
theorem c10_defaults (b : EnhanceBody) (u et : String)
    (hu : b.inputFileUrl = some u) (hu2 : u ≠ "")
    (het : b.enhancementType = some et)
    (hetv : et = "mix" ∨ et = "master" ∨ et = "4d")
    (hsm : b.speedMultiplier = none) (hps : b.pitchSemitones = none)
    (hfo : b.focus = none) (hmp : b.masterProfile = none) :
    (handleEnhance b).error = none ∧
    (handleEnhance b).createdJob =
      some (initialJob
        { inputFileUrl := u, enhancementType := et, speedMultiplier := 1,
          pitchSemitones := 0, focus := "none", masterProfile := "spotify" }) ∧
    (handleEnhance b).pipelineStarted =
      some { inputFileUrl := u, enhancementType := et, speedMultiplier := 1,
             pitchSemitones := 0, focus := "none",
             masterProfile := "spotify" } ∧
    (∀ (jobId : String) (env : PipeEnv) (r : JobRec),
      r ∈ jobTrace jobId
          { inputFileUrl := u, enhancementType := et, speedMultiplier := 1,
            pitchSemitones := 0, focus := "none",
            masterProfile := "spotify" } env →
      r.request =
        some { inputFileUrl := u, enhancementType := et, speedMultiplier := 1,
               pitchSemitones := 0, focus := "none",
               masterProfile := "spotify" }) := by
  have hmem : et ∈ (["mix", "master", "4d"] : List String) := by
    rcases hetv with rfl | rfl | rfl <;> simp
  simp only [handleEnhance, hu, het, hsm, hps, hfo, hmp, Option.getD_some,
    Option.getD_none]
  rw [if_neg hu2, if_neg (not_not_intro hmem), if_neg (by norm_num),
    if_neg (by norm_num), if_neg (by simp), if_neg (by simp)]
  exact ⟨rfl, rfl, rfl, fun jobId env r hr => jobTrace_request jobId _ env r hr⟩

/-- Witness for C10 at the minimal valid mix submission. -/
theorem c10_defaults_witness :
    (handleEnhance bodyValidMix).error = none ∧
    (handleEnhance bodyValidMix).createdJob =
      some (initialJob
        { inputFileUrl := "http://in/a.wav", enhancementType := "mix",
          speedMultiplier := 1, pitchSemitones := 0, focus := "none",
          masterProfile := "spotify" }) ∧
    (handleEnhance bodyValidMix).pipelineStarted =
      some { inputFileUrl := "http://in/a.wav", enhancementType := "mix",
             speedMultiplier := 1, pitchSemitones := 0, focus := "none",
             masterProfile := "spotify" } ∧
    (∀ (jobId : String) (env : PipeEnv) (r : JobRec),
      r ∈ jobTrace jobId
          { inputFileUrl := "http://in/a.wav", enhancementType := "mix",
            speedMultiplier := 1, pitchSemitones := 0, focus := "none",
            masterProfile := "spotify" } env →
      r.request =
        some { inputFileUrl := "http://in/a.wav", enhancementType := "mix",
               speedMultiplier := 1, pitchSemitones := 0, focus := "none",
               masterProfile := "spotify" }) :=
  c10_defaults bodyValidMix "http://in/a.wav" "mix" rfl (by decide) rfl
    (Or.inl rfl) rfl rfl rfl rfl

/-- Claim C8: a submission whose effective field values fall outside the
enumerated domains — `enhancementType` not in mix/master/4d, speed outside
[0.5, 2.0], pitch outside [−4, 4], focus not in its six values, or
`masterProfile` not in spotify/streaming/apple_music/soundcloud/loud — is
rejected synchronously: no job record is created and no pipeline (hence no
classification event) is started. -/
theorem c8_validation_rejects (b : EnhanceBody)
    (h : b.enhancementType.getD "" ∉ (["mix", "master", "4d"] : List String) ∨
      ¬ (1 / 2 ≤ b.speedMultiplier.getD 1 ∧ b.speedMultiplier.getD 1 ≤ 2) ∨
      ¬ (-4 ≤ b.pitchSemitones.getD 0 ∧ b.pitchSemitones.getD 0 ≤ 4) ∨
      b.focus.getD "none" ∉
        (["none", "bass", "presence", "air", "wide", "punch"] : List String) ∨
      b.masterProfile.getD "spotify" ∉
        (["spotify", "streaming", "apple_music", "soundcloud", "loud"] :
          List String)) :
    (handleEnhance b).createdJob = none ∧
    (handleEnhance b).pipelineStarted = none ∧
    (handleEnhance b).error.isSome = true := by
  unfold handleEnhance
  dsimp only
  split_ifs with g1 g2 g3 g4 g5 g6 <;>
    try exact ⟨rfl, rfl, rfl⟩
  exfalso
  rcases h with h | h | h | h | h
  · exact h g2
  · exact h g3
  · exact h g4
  · exact h g5
  · simp only [List.mem_cons, List.not_mem_nil, or_false] at g6 h
    rcases g6 with h4 | h4 | h4 | h4 <;> rw [h4] at h <;> simp at h

/-- Witness for C8: the submission with `speedMultiplier = 3.0` creates no
job and starts no pipeline. -/
theorem c8_validation_rejects_witness :
    (handleEnhance bodySpeed3).createdJob = none ∧
    (handleEnhance bodySpeed3).pipelineStarted = none ∧
    (handleEnhance bodySpeed3).error.isSome = true :=
  c8_validation_rejects bodySpeed3
    (Or.inr (Or.inl (by norm_num [bodySpeed3])))
